import Mathlib

/-!
Verification of the TurboGastos WhatsApp ingestor bridge (session-state
bridge and message relay).

The repository contains two revisions of the ingestor in the same source
file.  Revision 1 (lines 1-212) filters relayed messages by chat name and
uses a strict readiness handler that polls the connection state; revision 2
(lines 212-397) caches the target group id (`targetGroupId`), filters by
that cached id, and has a richer confirmation subscriber.  Both are
embedded below; definitions are named after their JavaScript counterparts.

Conventions of the shallow embedding:
* JavaScript strings are `String`; a value that may be `null`/`undefined`
  is `Option String`, and `truthy` reproduces JavaScript truthiness of such
  a value (`null`, `undefined` and `""` are falsy).
* The asynchronous handlers are embedded as pure functions from their
  inputs (the message, the chat returned by `msg.getChat()`, the contact
  returned by `msg.getContact()`, the current globals) to the list of
  external interactions they perform, in the order they perform them.
  An empty trace means the handler returned without any external call.
-/

namespace TurboGastos

/-- The reserved bot-marker prefix used by the loop guard:
`msg.body.startsWith('🤖:')`. -/
def botMarker : String := "🤖:"

/-- JavaScript truthiness of a nullable string: `null`/`undefined` (here
`none`) and the empty string are falsy, every other string is truthy. -/
def truthy (o : Option String) : Bool := o.getD "" != ""

/-- JavaScript `s.startsWith(p)`: `p`'s character sequence is a prefix of
`s`'s character sequence (computable model of `String.startsWith`). -/
def jsStartsWith (s p : String) : Bool := p.data.isPrefixOf s.data

/-- A conversation as returned by `client.getChats()` / `msg.getChat()`:
`{id: {_serialized}, name, isGroup}`. -/
structure Chat where
  id_serialized : String
  name : String
  isGroup : Bool
deriving DecidableEq, Repr

/-- A contact as returned by `msg.getContact()`. -/
structure Contact where
  pushname : Option String
  cname : Option String
deriving DecidableEq, Repr

/-- A message event from the session client. `author` is only present for
group messages (`msg.author || msg.from`); `mfrom` is `msg.from` and
`mtype` is `msg.type`. -/
structure Message where
  id_serialized : String
  fromMe : Bool
  body : String
  author : Option String
  mfrom : String
  timestamp : Nat
  mtype : String
deriving DecidableEq, Repr

/-- The RelayRecord: the flat, all-string payload appended to the Redis
stream by `redisClient.xAdd(REDIS_STREAM_NAME, '*', payload)`. -/
structure RelayRecord where
  wid : String
  chat_id : String
  chat_name : String
  sender_id : String
  sender_name : String
  timestamp : String
  mtype : String
  body : String
deriving DecidableEq, Repr

/-- The payload built inside `processAndPublishMessage`:
`sender_id = msg.author || msg.from`,
`sender_name = contact.pushname || contact.name || 'Unknown'`,
`timestamp = String(msg.timestamp)`. -/
def mkPayload (msg : Message) (chat : Chat) (contact : Contact) : RelayRecord :=
  { wid := msg.id_serialized
    chat_id := chat.id_serialized
    chat_name := chat.name
    sender_id := if truthy msg.author then msg.author.getD "" else msg.mfrom
    sender_name :=
      if truthy contact.pushname then contact.pushname.getD ""
      else if truthy contact.cname then contact.cname.getD "" else "Unknown"
    timestamp := toString msg.timestamp
    mtype := msg.mtype
    body := msg.body }

/-- External interactions performed by `processAndPublishMessage`, in
order: `msg.getChat()`, `msg.getContact()`, `redisClient.xAdd(...)`. -/
inductive RelayAction where
  | chatLookup : RelayAction
  | contactLookup : RelayAction
  | append : RelayRecord → RelayAction
deriving DecidableEq, Repr

/-- Revision 2 `processAndPublishMessage(msg, eventType)`: first the loop
guard `if (msg.fromMe && msg.body.startsWith('🤖:')) return;`, then
`if (!targetGroupId) return;`, then `msg.getChat()`, and the payload is
built (after `msg.getContact()`) and appended only when
`chat.id._serialized === targetGroupId`.  The returned list is the ordered
trace of external calls of one invocation, run against a snapshot of the
global `targetGroupId`. -/
def processAndPublishMessage (targetGroupId : Option String) (msg : Message)
    (chat : Chat) (contact : Contact) : List RelayAction :=
  if msg.fromMe && jsStartsWith msg.body botMarker then []
  else if truthy targetGroupId = false then []
  else
    RelayAction.chatLookup ::
      (if chat.id_serialized == targetGroupId.getD "" then
        [RelayAction.contactLookup, RelayAction.append (mkPayload msg chat contact)]
      else [])

/-- Revision 1 `processAndPublishMessage`: same loop guard first, then
`msg.getChat()`, and the message is published only when
`chat.isGroup && chat.name === TARGET_GROUP_NAME`. -/
def processAndPublishMessageV1 (targetName : String) (msg : Message)
    (chat : Chat) (contact : Contact) : List RelayAction :=
  if msg.fromMe && jsStartsWith msg.body botMarker then []
  else
    RelayAction.chatLookup ::
      (if chat.isGroup && chat.name == targetName then
        [RelayAction.contactLookup, RelayAction.append (mkPayload msg chat contact)]
      else [])

/-- The `message_create` handler:
`client.on('message_create', (msg) => { if (msg.fromMe) processAndPublishMessage(msg, ...) })`.
`none` means the shared processing function was never invoked. -/
def onMessageCreate (targetGroupId : Option String) (msg : Message)
    (chat : Chat) (contact : Contact) : Option (List RelayAction) :=
  if msg.fromMe then some (processAndPublishMessage targetGroupId msg chat contact)
  else none

/-- Target resolution:
`chats.find(chat => chat.isGroup && chat.name === TARGET_GROUP_NAME)`.
`List.find?` returns the first element satisfying the predicate, exactly
like `Array.prototype.find`. -/
def findTargetGroup (targetName : String) (chats : List Chat) : Option Chat :=
  chats.find? (fun chat => chat.isGroup && chat.name == targetName)

/-- Effect of one run of the revision 2 ready handler on the cached
`targetGroupId`: on a match the cache is set to the group's serialized id,
on no match the previous cache value is left in place (revision 2 only
assigns `targetGroupId` in the success branch). -/
def readyResolve (targetName : String) (chats : List Chat)
    (cache : Option String) : Option String :=
  match findTargetGroup targetName chats with
  | some g => some g.id_serialized
  | none => cache

/-- The startup notice sent on successful resolution. -/
def startupMsg : String := "🤖: TurboGastos conectado y listo para procesar gastos."

/-- Parsed confirmation payload, the result of
`const { original_wid, reply_message } = JSON.parse(message)`: either field
may be absent (`none`). -/
structure ParsedConf where
  original_wid : Option String
  reply_message : Option String
deriving DecidableEq, Repr

/-- Error log lines of the confirmation subscriber:
`'Cannot send confirmation: Target group not found.'` and
`'Error handling confirmation message:'` (the catch around `JSON.parse`). -/
inductive ConfLog where
  | targetUnresolved : ConfLog
  | parseError : ConfLog
deriving DecidableEq, Repr

/-- An outgoing `client.sendMessage(chatId, body, options)` call; the last
component is `options.quotedMessageId` when present. -/
inductive SendAction where
  | send : String → String → Option String → SendAction
deriving DecidableEq, Repr

/-- Result of one delivery on the confirmation channel: the sends issued
and the errors logged. -/
structure ConfOut where
  sends : List SendAction
  errors : List ConfLog
deriving DecidableEq, Repr

/-- Whether a send carries a quoted message id. -/
def sendQuoted : SendAction → Bool
  | SendAction.send _ _ q => q.isSome

/-- Revision 2 confirmation subscriber
(`redisSubscriber.subscribe('gastos:confirmations', ...)`): reject with a
logged error when `!targetGroupId`; a payload that fails to parse
(`payload = none`) is caught and logged; when `reply_message` is truthy,
send `` `🤖: ${reply_message}` `` to `targetGroupId`, with
`options = original_wid ? { quotedMessageId: original_wid } : {}`.
The function is total: no delivery crashes the subscriber loop. -/
def confirmationHandler (targetGroupId : Option String)
    (payload : Option ParsedConf) : ConfOut :=
  if truthy targetGroupId = false then
    { sends := [], errors := [ConfLog.targetUnresolved] }
  else
    match payload with
    | none => { sends := [], errors := [ConfLog.parseError] }
    | some p =>
      if truthy p.reply_message then
        { sends := [SendAction.send (targetGroupId.getD "")
            ("🤖: " ++ p.reply_message.getD "")
            (if truthy p.original_wid then p.original_wid else none)]
          errors := [] }
      else { sends := [], errors := [] }

/-- External interactions of the revision 1 strict ready handler:
`client.getState()`, the 1000 ms `setTimeout` sleep, `client.getChats()`,
and the startup `client.sendMessage`. -/
inductive ReadyAction where
  | getStateCall : ReadyAction
  | sleep : Nat → ReadyAction
  | getChatsCall : ReadyAction
  | startupSend : String → String → ReadyAction
deriving DecidableEq, Repr

/-- `const maxWaitTime = 30`. -/
def maxWaitTime : Nat := 30

/-- The polling loop of the revision 1 ready handler:
`while (state !== 'CONNECTED' && waitTime < maxWaitTime) { sleep 1s; state = await client.getState(); waitTime++ }`.
`states k` is the value returned by the `k`-th `client.getState()` call
(`states 0` is the initial call before the loop); `w` is `waitTime` and
`fuel` maintains `fuel = maxWaitTime - w`, so `fuel = 0` is exactly the
exit on `waitTime < maxWaitTime` failing.  Returns the final `state`
together with the trace of sleeps and state queries made by the loop. -/
def pollAux (states : Nat → String) : Nat → Nat → String × List ReadyAction
  | w, 0 => (states w, [])
  | w, fuel + 1 =>
    if states w == "CONNECTED" then (states w, [])
    else
      ((pollAux states (w + 1) fuel).1,
        ReadyAction.sleep 1000 :: ReadyAction.getStateCall ::
          (pollAux states (w + 1) fuel).2)

/-- Revision 1 `client.on('ready', ...)`: initial `client.getState()`, the
bounded polling loop, then `if (state !== 'CONNECTED') return;` — on abort
neither `client.getChats()` nor any send happens; otherwise the target
group is resolved by name and the startup message is sent to it when
found. -/
def readyHandlerV1 (targetName : String) (states : Nat → String)
    (chats : List Chat) : List ReadyAction :=
  ReadyAction.getStateCall ::
    ((pollAux states 0 maxWaitTime).2 ++
      (if (pollAux states 0 maxWaitTime).1 == "CONNECTED" then
        ReadyAction.getChatsCall ::
          (match findTargetGroup targetName chats with
           | some g => [ReadyAction.startupSend g.id_serialized startupMsg]
           | none => [])
      else []))

/-- Number of sleep actions in a ready-handler trace (loop iterations). -/
def sleepCount (tr : List ReadyAction) : Nat :=
  tr.countP (fun a => match a with | ReadyAction.sleep _ => true | _ => false)

/-- Process-wide mutable state of the revision 2 bridge.  The code keeps a
single global, `targetGroupId`.  `sessionDisconnected` is a history
observer (true when a `disconnected` lifecycle event has occurred and no
readiness transition has followed); the handlers never read it — the code
keeps no session-state variable at all — it exists so that properties about
the disconnected period can be stated. -/
structure BridgeState where
  targetGroupId : Option String
  sessionDisconnected : Bool
deriving DecidableEq, Repr

/-- The events the revision 2 bridge handles.  Message events carry the
chat and contact that the session client would return for the awaited
`msg.getChat()` / `msg.getContact()` calls. -/
inductive BridgeEvent where
  | ready : List Chat → BridgeEvent
  | disconnected : String → BridgeEvent
  | message : Message → Chat → Contact → BridgeEvent
  | messageCreate : Message → Chat → Contact → BridgeEvent
  | confirmation : Option ParsedConf → BridgeEvent
deriving Repr

/-- Externally visible outputs of one handler invocation: appends to the
durable log, outgoing sends, and log lines. -/
inductive OutAction where
  | append : RelayRecord → OutAction
  | send : String → String → Option String → OutAction
  | logLine : String → OutAction
deriving DecidableEq, Repr

/-- Appends performed by a relay trace, as bridge outputs. -/
def relayOuts : List RelayAction → List OutAction
  | [] => []
  | RelayAction.append r :: rest => OutAction.append r :: relayOuts rest
  | RelayAction.chatLookup :: rest => relayOuts rest
  | RelayAction.contactLookup :: rest => relayOuts rest

/-- Sends issued by the confirmation subscriber, as bridge outputs. -/
def confOuts (o : ConfOut) : List OutAction :=
  o.sends.map (fun s => match s with | SendAction.send c b q => OutAction.send c b q)

/-- One step of the revision 2 bridge: dispatch of a single event to its
handler, returning the next state and the outputs.  The `ready` handler
resolves and caches the target group and sends the startup notice on
success; the `disconnected` handler only logs the reason
(`console.log('Client was logged out:', reason)`) — it changes no relay
state; the message handlers run `processAndPublishMessage` (gated on
`msg.fromMe` for `message_create`); the confirmation handler runs the
subscriber callback. -/
def step (targetName : String) (s : BridgeState) (e : BridgeEvent) :
    BridgeState × List OutAction :=
  match e with
  | BridgeEvent.ready chats =>
    (⟨readyResolve targetName chats s.targetGroupId, false⟩,
      match findTargetGroup targetName chats with
      | some g => [OutAction.send g.id_serialized startupMsg none]
      | none => [])
  | BridgeEvent.disconnected reason =>
    (⟨s.targetGroupId, true⟩, [OutAction.logLine reason])
  | BridgeEvent.message msg chat contact =>
    (s, relayOuts (processAndPublishMessage s.targetGroupId msg chat contact))
  | BridgeEvent.messageCreate msg chat contact =>
    (s, match onMessageCreate s.targetGroupId msg chat contact with
        | some tr => relayOuts tr
        | none => [])
  | BridgeEvent.confirmation payload =>
    (s, confOuts (confirmationHandler s.targetGroupId payload))

/-! Concrete values used in witnesses and counterexamples. -/

/-- The target group of the deployed configuration, id `g1`. -/
def gChat : Chat := ⟨"g1", "GastosMyM", true⟩

/-- A group that shares the target name but comes later in enumeration. -/
def dupChat : Chat := ⟨"g2", "GastosMyM", true⟩

/-- A group with a different name. -/
def otherChat : Chat := ⟨"x1", "Otro grupo", true⟩

/-- A sample contact. -/
def mariaContact : Contact := ⟨some "Maria", none⟩

/-- An inbound expense message in the target group. -/
def cafeMsg : Message :=
  ⟨"m1", false, "Café 3.50", some "u1", "g1", 1700000000, "chat"⟩

/-- A self-authored automated reply (the bridge's own confirmation). -/
def botMsg : Message :=
  ⟨"m9", true, "🤖: ✅ Gasto procesado.", none, "me", 1700000100, "chat"⟩

/-- A confirmation payload whose `original_wid` is supplied but empty. -/
def cexPayload : ParsedConf := ⟨some "", some "Gasto procesado."⟩

/-- State after resolving `g1` and then receiving a `disconnected` event. -/
def disconnectedState : BridgeState := ⟨some "g1", true⟩

/-! ## Helper lemmas -/

/-- A truthy nullable string is `some` of its default-read value. -/
theorem truthy_isSome (o : Option String) (h : truthy o = true) :
    o = some (o.getD "") := by
  cases o with
  | none => simp [truthy] at h
  | some s => rfl

/-- Characterization of when `processAndPublishMessage` appends a record:
the loop guard passed, the cache is truthy, the chat is the cached target,
and the record is the normalized payload. -/
theorem append_mem_iff (tg : Option String) (msg : Message) (chat : Chat)
    (contact : Contact) (r : RelayRecord) :
    RelayAction.append r ∈ processAndPublishMessage tg msg chat contact ↔
    ((msg.fromMe && jsStartsWith msg.body botMarker) = false ∧ truthy tg = true ∧
      chat.id_serialized = tg.getD "" ∧ r = mkPayload msg chat contact) := by
  cases hg : msg.fromMe && jsStartsWith msg.body botMarker <;>
    cases ht : truthy tg <;>
      simp [processAndPublishMessage, hg, ht]

/-- The polling loop performs at most `fuel` sleep iterations. -/
theorem pollAux_sleepCount (states : Nat → String) (fuel w : Nat) :
    sleepCount (pollAux states w fuel).2 ≤ fuel := by
  induction fuel generalizing w with
  | zero => simp [pollAux, sleepCount]
  | succ f ih =>
    rw [pollAux]
    split
    · simp [sleepCount]
    · have h := ih (w + 1)
      simp [sleepCount, List.countP_cons] at h ⊢
      omega

/-- The polling loop's trace consists only of 1000 ms sleeps and
connection-state queries. -/
theorem pollAux_mem (states : Nat → String) (fuel w : Nat) (a : ReadyAction)
    (h : a ∈ (pollAux states w fuel).2) :
    a = ReadyAction.sleep 1000 ∨ a = ReadyAction.getStateCall := by
  induction fuel generalizing w with
  | zero => simp [pollAux] at h
  | succ f ih =>
    rw [pollAux] at h
    split at h
    · simp at h
    · simp only [List.mem_cons] at h
      rcases h with h | h | h

      · exact Or.inl h
      · exact Or.inr h
      · exact ih (w + 1) h

/-- All sleeps of the ready handler come from the polling loop: the rest
of the trace contributes none. -/
theorem sleepCount_readyHandlerV1 (targetName : String) (states : Nat → String)
    (chats : List Chat) :
    sleepCount (readyHandlerV1 targetName states chats) =
      sleepCount (pollAux states 0 maxWaitTime).2 := by
  cases hb : (pollAux states 0 maxWaitTime).1 == "CONNECTED" <;>
    cases hf : findTargetGroup targetName chats <;>
      simp [readyHandlerV1, sleepCount, hb, hf, List.countP_cons, List.countP_append]

/-- `Array.prototype.find` semantics: a matching chat preceded only by
non-matching chats is the one found, whatever comes after it. -/
theorem findTargetGroup_first (targetName : String) (l1 l2 : List Chat)
    (c : Chat) (hc : (c.isGroup && c.name == targetName) = true)
    (hl1 : ∀ c2 ∈ l1, (c2.isGroup && c2.name == targetName) = false) :
    findTargetGroup targetName (l1 ++ c :: l2) = some c := by
  induction l1 with
  | nil => simp [findTargetGroup, List.find?_cons_of_pos, hc]
  | cons a l ih =>
    have ha : (a.isGroup && a.name == targetName) = false :=
      hl1 a (List.mem_cons_self a l)
    have ih2 := ih (fun c2 hc2 => hl1 c2 (List.mem_cons_of_mem a hc2))
    simpa [findTargetGroup, List.find?_cons_of_neg, ha] using ih2

/-! ## Claims -/

/-- Claim C1: for every message event authored by this process (`fromMe`)
whose body starts with the reserved bot-marker prefix, the shared
processing function returns immediately with an empty interaction trace —
no RelayRecord is appended, no chat or contact lookup happens, and the
conversation-membership check is never reached — regardless of the cached
target and of the event's conversation, in both revisions of
`processAndPublishMessage`. -/
theorem claim1_loopGuard (targetGroupId : Option String) (targetName : String)
    (msg : Message) (chat : Chat) (contact : Contact)
    (hMe : msg.fromMe = true) (hMark : jsStartsWith msg.body botMarker = true) :
    processAndPublishMessage targetGroupId msg chat contact = [] ∧
    processAndPublishMessageV1 targetName msg chat contact = [] := by
  constructor <;>
    simp [processAndPublishMessage, processAndPublishMessageV1, hMe, hMark]

/-- Witness for C1: the bridge's own confirmation reply
`"🤖: ✅ Gasto procesado."` observed as a self-authored event produces an
empty trace in both revisions. -/
theorem claim1_loopGuard_witness :
    processAndPublishMessage (some "g1") botMsg gChat mariaContact = [] ∧
    processAndPublishMessageV1 "GastosMyM" botMsg gChat mariaContact = [] :=
  claim1_loopGuard (some "g1") "GastosMyM" botMsg gChat mariaContact
    (by decide) (by decide)

/-- Claim C2: a RelayRecord is appended only when the event's chat id
equals the cached `targetGroupId` snapshot of the handler invocation, and
every appended record carries exactly that id in `chat_id`; if the chat id
differs from the cache (or the cache is unset), nothing is appended. -/
theorem claim2_targetMatch (targetGroupId : Option String) (msg : Message)
    (chat : Chat) (contact : Contact) :
    (∀ r : RelayRecord,
        RelayAction.append r ∈ processAndPublishMessage targetGroupId msg chat contact →
        targetGroupId = some r.chat_id) ∧
    (targetGroupId ≠ some chat.id_serialized →
      ∀ r : RelayRecord,
        RelayAction.append r ∉ processAndPublishMessage targetGroupId msg chat contact) := by
  constructor
  · intro r hr
    obtain ⟨-, ht, hid, hrec⟩ := (append_mem_iff _ _ _ _ _).mp hr
    have hsome := truthy_isSome targetGroupId ht
    rw [hrec]
    simp only [mkPayload]
    rw [hid] at *
    exact hsome
  · intro hne r hr
    obtain ⟨-, ht, hid, -⟩ := (append_mem_iff _ _ _ _ _).mp hr
    have hsome := truthy_isSome targetGroupId ht
    exact hne (hid ▸ hsome)

/-- Witness for C2: the inbound expense message in chat `g1` is appended
with `chat_id = "g1"` when the cache holds `g1`, and is not appended when
the cache holds a different id. -/
theorem claim2_targetMatch_witness :
    (some "g1" : Option String) = some (mkPayload cafeMsg gChat mariaContact).chat_id ∧
    RelayAction.append (mkPayload cafeMsg gChat mariaContact) ∉
      processAndPublishMessage (some "otherGroup") cafeMsg gChat mariaContact := by
  refine ⟨(claim2_targetMatch (some "g1") cafeMsg gChat mariaContact).1
      (mkPayload cafeMsg gChat mariaContact) (by decide), ?_⟩
  exact (claim2_targetMatch (some "otherGroup") cafeMsg gChat mariaContact).2
    (by decide) (mkPayload cafeMsg gChat mariaContact)

/-- Claim C3: while `targetGroupId` is unresolved (falsy), every delivery
on the confirmation channel — whatever its payload, malformed or not —
issues zero sends and logs exactly the one `targetUnresolved` error. -/
theorem claim3_unresolvedDrop (targetGroupId : Option String)
    (payload : Option ParsedConf) (h : truthy targetGroupId = false) :
    (confirmationHandler targetGroupId payload).sends = [] ∧
    (confirmationHandler targetGroupId payload).errors = [ConfLog.targetUnresolved] := by
  simp [confirmationHandler, h]

/-- Witness for C3: a well-formed command arriving before resolution is
dropped with one logged error and no send. -/
theorem claim3_unresolvedDrop_witness :
    (confirmationHandler none (some ⟨some "m123", some "Gasto procesado."⟩)).sends = [] ∧
    (confirmationHandler none (some ⟨some "m123", some "Gasto procesado."⟩)).errors =
      [ConfLog.targetUnresolved] :=
  claim3_unresolvedDrop none (some ⟨some "m123", some "Gasto procesado."⟩) (by decide)

/-- Counterexample to C4 as stated: `cexPayload` supplies a
`quote_message_id` (`original_wid = some ""`, i.e. the field is present in
the decoded payload), yet the single send issued carries no quote — the
code quotes on JavaScript truthiness (`original_wid ? {quotedMessageId:
original_wid} : {}`), so an empty-string quote id is supplied but not
quoted, refuting "quoted if and only if a quote_message_id was
supplied". -/
theorem claim4_counterexample :
    cexPayload.original_wid.isSome = true ∧
    (confirmationHandler (some "g1") (some cexPayload)).sends =
      [SendAction.send "g1" "🤖: Gasto procesado." none] ∧
    ((confirmationHandler (some "g1") (some cexPayload)).sends.all sendQuoted) = false := by
  decide

/-- Claim C4 (amended): for a command with truthy (non-empty) reply text
processed while the target is resolved, exactly one send is issued, to the
cached target conversation, with body the bot marker plus the reply text,
and it quotes a message if and only if a non-empty `quote_message_id` was
supplied (the quoted id being exactly the supplied one). -/
theorem claim4_confirmSend (targetGroupId : Option String) (p : ParsedConf)
    (hTg : truthy targetGroupId = true) (hReply : truthy p.reply_message = true) :
    (confirmationHandler targetGroupId (some p)).sends.length = 1 ∧
    (∀ c b q, SendAction.send c b q ∈ (confirmationHandler targetGroupId (some p)).sends →
      targetGroupId = some c ∧ b = "🤖: " ++ p.reply_message.getD "" ∧
      q.isSome = truthy p.original_wid ∧
      (∀ s, q = some s → p.original_wid = some s)) := by
  constructor
  · simp [confirmationHandler, hTg, hReply]
  · intro c b q hmem
    simp only [confirmationHandler, hTg, hReply, Bool.true_eq_false, if_false, if_true,
      reduceIte, List.mem_singleton] at hmem
    obtain ⟨hc, hb, hq⟩ := SendAction.send.inj hmem
    refine ⟨by rw [hc]; exact truthy_isSome targetGroupId hTg, hb, ?_, ?_⟩
    · rw [hq]
      cases hw : truthy p.original_wid with
      | true =>
        obtain ⟨w, hw2⟩ : ∃ w, p.original_wid = some w :=
          ⟨_, truthy_isSome _ hw⟩
        simp [hw2]
      | false => simp
    · intro s hs
      rw [hq] at hs
      simp at hs
      exact hs.2

/-- Witness for the amended C4: the spec's Scenario 4 command, target
resolved to `g1`: one send, to `g1`. -/
theorem claim4_confirmSend_witness :
    (confirmationHandler (some "g1") (some ⟨some "m123", some "Gasto procesado."⟩)).sends.length = 1 ∧
    (some "g1" : Option String) = some "g1" := by
  have h := claim4_confirmSend (some "g1") ⟨some "m123", some "Gasto procesado."⟩
    (by decide) (by decide)
  exact ⟨h.1, (h.2 "g1" "🤖: Gasto procesado." (some "m123") (by decide)).1⟩

/-- Counterexample to C5 as stated: a concrete run — resolve `g1`, receive
a `disconnected` event (so `sessionDisconnected` holds and no readiness
transition followed), then a message event in `g1` — still appends a
RelayRecord, and a confirmation delivered in the same disconnected period
still issues a send: the bridge does not halt relaying or sending while
disconnected. -/
theorem claim5_counterexample :
    (step "GastosMyM" ⟨none, false⟩ (BridgeEvent.ready [gChat])).1 =
      ⟨some "g1", false⟩ ∧
    (step "GastosMyM" ⟨some "g1", false⟩ (BridgeEvent.disconnected "NAVIGATION")).1 =
      disconnectedState ∧
    disconnectedState.sessionDisconnected = true ∧
    (step "GastosMyM" disconnectedState
        (BridgeEvent.message cafeMsg gChat mariaContact)).2 =
      [OutAction.append (mkPayload cafeMsg gChat mariaContact)] ∧
    (step "GastosMyM" disconnectedState
        (BridgeEvent.confirmation (some ⟨none, some "✅ Gasto procesado."⟩))).2 =
      [OutAction.send "g1" "🤖: ✅ Gasto procesado." none] := by
  decide

/-- Claim C5 (amended): the `disconnected` handler only logs the reason —
it leaves the cached target untouched, appends nothing and sends nothing —
and the bridge keeps no session-state flag, so the outputs of every
handler are identical whether or not a disconnected event has occurred:
relaying/sending is not halted by the bridge itself; halting relies on the
session client ceasing to deliver events and on external restart policy. -/
theorem claim5_disconnectedOnlyLogs (targetName : String) (s : BridgeState)
    (reason : String) (e : BridgeEvent) :
    (step targetName s (BridgeEvent.disconnected reason)).1.targetGroupId =
      s.targetGroupId ∧
    (step targetName s (BridgeEvent.disconnected reason)).2 =
      [OutAction.logLine reason] ∧
    (step targetName ⟨s.targetGroupId, true⟩ e).2 =
      (step targetName ⟨s.targetGroupId, false⟩ e).2 := by
  refine ⟨rfl, rfl, ?_⟩
  cases e <;> rfl

/-- Claim C6: the strict ready handler's polling loop performs at most 30
iterations, each sleeping exactly 1000 ms, and when the final polled state
is still not `CONNECTED` the handler aborts: it never calls
`client.getChats()` (no target resolution) and never sends the startup
message. -/
theorem claim6_strictReadiness (targetName : String) (states : Nat → String)
    (chats : List Chat) :
    sleepCount (readyHandlerV1 targetName states chats) ≤ 30 ∧
    (∀ ms, ReadyAction.sleep ms ∈ readyHandlerV1 targetName states chats → ms = 1000) ∧
    ((pollAux states 0 maxWaitTime).1 ≠ "CONNECTED" →
      ReadyAction.getChatsCall ∉ readyHandlerV1 targetName states chats ∧
      ∀ cid body, ReadyAction.startupSend cid body ∉ readyHandlerV1 targetName states chats) := by
  refine ⟨?_, ?_, ?_⟩
  · rw [sleepCount_readyHandlerV1]
    exact pollAux_sleepCount states maxWaitTime 0
  · intro ms hmem
    simp only [readyHandlerV1, List.mem_cons, List.mem_append] at hmem
    rcases hmem with h | h | h
    · cases h
    · rcases pollAux_mem states maxWaitTime 0 _ h with h1 | h1 <;> cases h1; rfl
    · cases hb : (pollAux states 0 maxWaitTime).1 == "CONNECTED" <;> rw [hb] at h
      · simp at h
      · simp only [if_true, List.mem_cons] at h
        rcases h with h | h
        · cases h
        · cases hf : findTargetGroup targetName chats <;> rw [hf] at h <;> simp at h
  · intro hnc
    have hb : ((pollAux states 0 maxWaitTime).1 == "CONNECTED") = false := by
      simpa using hnc
    constructor
    · intro hmem
      simp only [readyHandlerV1, hb, if_false, List.append_nil, List.mem_cons,
        Bool.false_eq_true] at hmem
      rcases hmem with h | h
      · cases h
      · rcases pollAux_mem states maxWaitTime 0 _ h with h1 | h1 <;> cases h1
    · intro cid body hmem
      simp only [readyHandlerV1, hb, if_false, List.append_nil, List.mem_cons,
        Bool.false_eq_true] at hmem
      rcases hmem with h | h
      · cases h
      · rcases pollAux_mem states maxWaitTime 0 _ h with h1 | h1 <;> cases h1

/-- Witness for C6: a session whose connection state stays `OPENING`
forever makes the loop run its full 30 iterations and abort without
resolving or sending. -/
theorem claim6_strictReadiness_witness :
    sleepCount (readyHandlerV1 "GastosMyM" (fun _ => "OPENING") [gChat]) ≤ 30 ∧
    ReadyAction.getChatsCall ∉ readyHandlerV1 "GastosMyM" (fun _ => "OPENING") [gChat] := by
  have h := claim6_strictReadiness "GastosMyM" (fun _ => "OPENING") [gChat]
  exact ⟨h.1, (h.2.2 (by decide)).1⟩

/-- Claim C7: resolution matches by exact (case-sensitive) string equality
of the chat name against the configured target name; when several
enumerated conversations share that name the first in enumeration order is
cached; and any chat the resolver returns — hence any chat whose id ends
up cached — has exactly the configured name. -/
theorem claim7_exactFirstMatch (targetName : String) (l1 l2 : List Chat)
    (c : Chat) (cache : Option String)
    (hc : c.isGroup = true ∧ c.name = targetName)
    (hl1 : ∀ c2 ∈ l1, ¬(c2.isGroup = true ∧ c2.name = targetName)) :
    findTargetGroup targetName (l1 ++ c :: l2) = some c ∧
    readyResolve targetName (l1 ++ c :: l2) cache = some c.id_serialized ∧
    (∀ chats c3, findTargetGroup targetName chats = some c3 →
      c3.isGroup = true ∧ c3.name = targetName) := by
  have hfind : findTargetGroup targetName (l1 ++ c :: l2) = some c := by
    refine findTargetGroup_first targetName l1 l2 c ?_ ?_
    · simp [hc.1, hc.2]
    · intro c2 h2
      have := hl1 c2 h2
      cases hg : c2.isGroup <;> cases hn : c2.name == targetName <;>
        simp_all [beq_iff_eq]
  refine ⟨hfind, by simp [readyResolve, hfind], ?_⟩
  intro chats c3 h3
  have h4 : chats.find? (fun chat => chat.isGroup && chat.name == targetName) =
      some c3 := h3
  have hp := List.find?_some h4
  simpa [Bool.and_eq_true, beq_iff_eq] using hp

/-- Witness for C7: with an unrelated group first and a second group that
duplicates the target name later in enumeration order, the first
`GastosMyM` group (`g1`) is found and its id cached. -/
theorem claim7_exactFirstMatch_witness :
    findTargetGroup "GastosMyM" [otherChat, gChat, dupChat] = some gChat ∧
    readyResolve "GastosMyM" [otherChat, gChat, dupChat] none = some "g1" := by
  have h := claim7_exactFirstMatch "GastosMyM" [otherChat] [dupChat] gChat none
    (by decide) (by decide)
  exact ⟨h.1, h.2.1⟩

/-- Claim C8: resolution is idempotent — running the ready-handler cache
update a second time against an unchanged conversation enumeration leaves
the cached id unchanged. -/
theorem claim8_resolveIdempotent (targetName : String) (chats : List Chat)
    (cache : Option String) :
    readyResolve targetName chats (readyResolve targetName chats cache) =
      readyResolve targetName chats cache := by
  cases h : findTargetGroup targetName chats <;> simp [readyResolve, h]

/-- Claim C9: with the target resolved, a malformed (undecodable) payload
is dropped with exactly one logged parse error and zero sends — the
handler's totality embeds that the subscriber loop never crashes — and a
decodable payload whose `reply_message` is missing or empty results in no
action at all (zero sends, zero errors).  (A malformed payload arriving
while the target is unresolved is dropped even earlier, with the
unresolved-target error of C3.) -/
theorem claim9_malformedPayload (targetGroupId : Option String) (p : ParsedConf)
    (hTg : truthy targetGroupId = true) :
    ((confirmationHandler targetGroupId none).sends = [] ∧
      (confirmationHandler targetGroupId none).errors = [ConfLog.parseError]) ∧
    (truthy p.reply_message = false →
      (confirmationHandler targetGroupId (some p)).sends = [] ∧
      (confirmationHandler targetGroupId (some p)).errors = []) := by
  exact ⟨by simp [confirmationHandler, hTg],
    fun h => by simp [confirmationHandler, hTg, h]⟩

/-- Witness for C9: with target `g1`, an unparseable delivery yields zero
sends and the parse error; a decoded payload lacking `reply_message`
yields zero sends. -/
theorem claim9_malformedPayload_witness :
    (confirmationHandler (some "g1") none).sends = [] ∧
    (confirmationHandler (some "g1") none).errors = [ConfLog.parseError] ∧
    (confirmationHandler (some "g1") (some ⟨some "w1", none⟩)).sends = [] := by
  have h := claim9_malformedPayload (some "g1") ⟨some "w1", none⟩ (by decide)
  exact ⟨h.1.1, h.1.2, (h.2 (by decide)).1⟩

/-- Claim C10: the `message_create` channel is gated on authorship before
any processing — for a delivered self-channel event with `fromMe = false`,
the shared processing function is never invoked (`none`) and the bridge
step produces no output at all (in particular no append). -/
theorem claim10_messageCreateGate (targetName : String) (s : BridgeState)
    (msg : Message) (chat : Chat) (contact : Contact) (h : msg.fromMe = false) :
    onMessageCreate s.targetGroupId msg chat contact = none ∧
    (step targetName s (BridgeEvent.messageCreate msg chat contact)).2 = [] := by
  have h1 : onMessageCreate s.targetGroupId msg chat contact = none := by
    simp [onMessageCreate, h]
  exact ⟨h1, by simp [step, h1]⟩

/-- Witness for C10: the inbound (not self-authored) expense message on
the `message_create` channel triggers nothing, even with the target
resolved. -/
theorem claim10_messageCreateGate_witness :
    onMessageCreate disconnectedState.targetGroupId cafeMsg gChat mariaContact = none ∧
    (step "GastosMyM" disconnectedState
        (BridgeEvent.messageCreate cafeMsg gChat mariaContact)).2 = [] :=
  claim10_messageCreateGate "GastosMyM" disconnectedState cafeMsg gChat mariaContact
    (by decide)

end TurboGastos
